import Mathlib

/-! Shallow embedding of `src/main.py`, the weather MCP server backed by the NWS
API.  The tool handlers `get_alerts` and `get_forecast`, the formatting helper
`format_alert` and the outbound helper `make_nws_request` are translated here.
The network is modelled as an explicit reply value handed to each function:
the URLs the Python code builds are pure string formatting of the inputs and
never influence control flow, so each outbound call is represented by the
reply the network would give for it.  Python exceptions are modelled with
`Except PyErr`; a `.error` result means the Python call raises.
-/

namespace Weather

/-- A Python value as produced by `response.json()`: JSON null, booleans,
numbers, strings, lists and dicts.  Numeric literals are modelled as integers
(the NWS payload fields the program reads are integers or strings); dicts are
association lists with the keys assumed distinct, as parsed JSON gives. -/
inductive Json where
  | null : Json
  | bool : Bool → Json
  | int  : Int → Json
  | str  : String → Json
  | arr  : List Json → Json
  | obj  : List (String × Json) → Json

/-- The Python exceptions the embedded code can raise or catch:
`KeyError` from `d[k]` with a missing key, `TypeError` from subscripting,
membership testing, iterating or slicing a value of the wrong type,
`AttributeError` from `.get` on a non-dict, and the three failure kinds the
`try` block of `make_nws_request` turns into `None` (the transport exception
from `client.get`, `HTTPStatusError` from `raise_for_status`, and the decode
error from `response.json()`). -/
inductive PyErr where
  | keyError : PyErr
  | typeError : PyErr
  | attributeError : PyErr
  | requestError : PyErr
  | httpStatusError : PyErr
  | jsonDecodeError : PyErr
deriving DecidableEq

/-- Python truthiness of a JSON value: `None`, `False`, `0`, `""`, `[]` and
`` \x7b\x7d `` are falsy, everything else truthy. -/
def truthy : Json → Bool
  | .null => false
  | .bool b => b
  | .int n => n != 0
  | .str s => s != ""
  | .arr l => !l.isEmpty
  | .obj m => !m.isEmpty

/-- First-match lookup in the association list of a dict. -/
def objLookup : List (String × Json) → String → Option Json
  | [], _ => none
  | (k, v) :: rest, key => if k = key then some v else objLookup rest key

/-- Python subscript `x[key]` with a string key: only dicts accept it
(`KeyError` when the key is absent); strings and lists want integer indices
and scalars are not subscriptable, all raising `TypeError`. -/
def pyIndex (x : Json) (key : String) : Except PyErr Json :=
  match x with
  | .obj m =>
    match objLookup m key with
    | some v => .ok v
    | none => .error .keyError
  | _ => .error .typeError

/-- Python `x.get(key, default)`: defined on dicts only; any other receiver
has no `get` attribute and raises `AttributeError`. -/
def pyGet (x : Json) (key : String) (dflt : Json) : Except PyErr Json :=
  match x with
  | .obj m => .ok ((objLookup m key).getD dflt)
  | _ => .error .attributeError

/-- Substring test on character lists, used for Python `needle in hay` when
`hay` is a string. -/
def charsContain (needle : List Char) : List Char → Bool
  | [] => needle = []
  | c :: rest =>
    ((c :: rest).take needle.length = needle) || charsContain needle rest

/-- Python membership `key in x` for a string `key`: key test on dicts,
element equality on lists, substring test on strings; numbers, booleans and
`None` are not containers and raise `TypeError`. -/
def pyContains (key : String) (x : Json) : Except PyErr Bool :=
  match x with
  | .obj m => .ok (objLookup m key).isSome
  | .arr l => .ok (l.any fun v => match v with | .str s => s = key | _ => false)
  | .str s => .ok (charsContain key.toList s.toList)
  | _ => .error .typeError

/-- Python iteration `for v in x`: the elements of a list, the keys of a
dict, the one-character strings of a string; anything else raises
`TypeError`. -/
def pyIter (x : Json) : Except PyErr (List Json) :=
  match x with
  | .arr l => .ok l
  | .obj m => .ok (m.map fun kv => Json.str kv.1)
  | .str s => .ok (s.toList.map fun c => Json.str (String.singleton c))
  | _ => .error .typeError

/-- Python slice `x[:5]`: the first five elements of a list or characters of
a string; dicts and scalars do not support slicing and raise `TypeError`. -/
def pySliceTo5 (x : Json) : Except PyErr Json :=
  match x with
  | .arr l => .ok (.arr (l.take 5))
  | .str s => .ok (.str (String.mk (s.toList.take 5)))
  | _ => .error .typeError

mutual
/-- Python `repr` of a JSON value as used when `str` renders the elements of
a container (containers never reach an f-string in the claims considered;
string escaping inside `repr` is not modelled). -/
def pyRepr : Json → String
  | .null => "None"
  | .bool true => "True"
  | .bool false => "False"
  | .int n => toString n
  | .str s => String.singleton (Char.ofNat 39) ++ s ++ String.singleton (Char.ofNat 39)
  | .arr l => "[" ++ pyReprList l ++ "]"
  | .obj m => "\x7b" ++ pyReprObj m ++ "\x7d"

/-- Comma-separated `repr`s of the elements of a list. -/
def pyReprList : List Json → String
  | [] => ""
  | [v] => pyRepr v
  | v :: rest => pyRepr v ++ ", " ++ pyReprList rest

/-- Comma-separated `repr`s of the entries of a dict. -/
def pyReprObj : List (String × Json) → String
  | [] => ""
  | [(k, v)] =>
    String.singleton (Char.ofNat 39) ++ k ++ String.singleton (Char.ofNat 39) ++ ": " ++ pyRepr v
  | (k, v) :: rest =>
    String.singleton (Char.ofNat 39) ++ k ++ String.singleton (Char.ofNat 39) ++ ": " ++ pyRepr v
      ++ ", " ++ pyReprObj rest
end

/-- Python `str()` as applied by f-string interpolation: strings verbatim,
`None`/`True`/`False`, decimal integers, and `repr`-style rendering of
containers. -/
def pyStr : Json → String
  | .null => "None"
  | .bool true => "True"
  | .bool false => "False"
  | .int n => toString n
  | .str s => s
  | .arr l => pyRepr (.arr l)
  | .obj m => pyRepr (.obj m)

/-- What the network gives back for one outbound `client.get`: either the
request itself raises (connection failure, timeout, bad URL), or a reply
arrives with an HTTP status and a body; `none` for the body means
`response.json()` raises (unparseable body). -/
inductive NwsResponse where
  | exn : NwsResponse
  | reply : Nat → Option Json → NwsResponse

/-- The body of the `try` block of `make_nws_request`: `client.get` (may
raise the transport error), `response.raise_for_status()` (raises
`HTTPStatusError` on any non-2xx status), `response.json()` (raises on an
unparseable body), then return the parsed value. -/
def requestTryBody : NwsResponse → Except PyErr Json
  | .exn => .error .requestError
  | .reply status body =>
    if 200 ≤ status ∧ status < 300 then
      match body with
      | some j => .ok j
      | none => .error .jsonDecodeError
    else .error .httpStatusError

/-- Function `make_nws_request`: the `try` body with `except Exception: return None`
around it — every failure kind collapses to `none`. -/
def make_nws_request (r : NwsResponse) : Option Json :=
  match requestTryBody r with
  | .ok j => some j
  | .error _ => none

/-- Function `format_alert(feature)`: `feature["properties"]` (raising when absent or
when `feature` is not a dict), then five `.get` lookups with the literal
defaults, interpolated into the five-line f-string. -/
def format_alert (feature : Json) : Except PyErr String := do
  let props ← pyIndex feature "properties"
  let ev ← pyGet props "event" (.str "Unknown")
  let area ← pyGet props "areaDesc" (.str "Unknown")
  let sev ← pyGet props "severity" (.str "Unknown")
  let desc ← pyGet props "description" (.str "No description available")
  let instr ← pyGet props "instruction" (.str "No specific instructions provided")
  pure ("\nEvent: " ++ pyStr ev ++ "\nArea: " ++ pyStr area ++ "\nSeverity: " ++ pyStr sev
    ++ "\nDescription: " ++ pyStr desc ++ "\nInstructions: " ++ pyStr instr ++ "\n")

/-- Comprehension `[format_alert(feature) for feature in items]`: evaluated left to right,
the first exception propagating, as a Python list comprehension does. -/
def mapExcept (f : Json → Except PyErr String) : List Json → Except PyErr (List String)
  | [] => .ok []
  | x :: xs =>
    match f x with
    | .error e => .error e
    | .ok b =>
      match mapExcept f xs with
      | .error e => .error e
      | .ok bs => .ok (b :: bs)

/-- Tool `get_alerts(state)` given the reply the network gives for
`\x7bbase\x7d/alerts/active/area/\x7bstate\x7d`.  Mirrors the source line by
line: the short-circuit guard `not data or "features" not in data`, the
empty-features guard, then the comprehension joined with `"\n---\n"`. -/
def get_alerts (resp : NwsResponse) : Except PyErr String :=
  match make_nws_request resp with
  | none => .ok "Unable to fetch alerts or no alerts found."
  | some data =>
    if !truthy data then .ok "Unable to fetch alerts or no alerts found."
    else
      match pyContains "features" data with
      | .error e => .error e
      | .ok false => .ok "Unable to fetch alerts or no alerts found."
      | .ok true => do
        let features ← pyIndex data "features"
        if !truthy features then
          pure "No active alerts for this state."
        else do
          let items ← pyIter features
          let alerts ← mapExcept format_alert items
          pure (String.intercalate "\n---\n" alerts)

/-- The f-string built for one forecast period inside the loop of
`get_forecast`, with its six subscript accesses evaluated in source order.
The two characters between the temperature and its unit are the literal
mojibake bytes of the source file. -/
def formatPeriod (period : Json) : Except PyErr String := do
  let name ← pyIndex period "name"
  let temp ← pyIndex period "temperature"
  let unit ← pyIndex period "temperatureUnit"
  let wind ← pyIndex period "windSpeed"
  let windDir ← pyIndex period "windDirection"
  let detailed ← pyIndex period "detailedForecast"
  pure ("\n" ++ pyStr name ++ ":\nTemperature: " ++ pyStr temp ++ "Â°" ++ pyStr unit
    ++ "\nWind: " ++ pyStr wind ++ " " ++ pyStr windDir
    ++ "\nForecast: " ++ pyStr detailed ++ "\n")

/-- Tool `get_forecast(latitude, longitude)` given the network replies for the
grid-point lookup (`resp1`) and for the forecast URL (`resp2`).  The second
component counts the outbound calls performed (1 when the function returns
before the second `make_nws_request`, 2 otherwise).  Mirrors the source:
`if not points_data` guard, unguarded
`points_data["properties"]["forecast"]`, second call, `if not forecast_data`
guard, unguarded `forecast_data["properties"]["periods"]`, slice `[:5]`,
loop, join with `"\n---\n"`. -/
def get_forecast (resp1 resp2 : NwsResponse) : Except PyErr String × Nat :=
  match make_nws_request resp1 with
  | none => (.ok "Unable to fetch forecast data for this location.", 1)
  | some points_data =>
    if !truthy points_data then
      (.ok "Unable to fetch forecast data for this location.", 1)
    else
      match (do
          let props ← pyIndex points_data "properties"
          pyIndex props "forecast" : Except PyErr Json) with
      | .error e => (.error e, 1)
      | .ok _forecast_url =>
        match make_nws_request resp2 with
        | none => (.ok "Unable to fetch detailed forecast.", 2)
        | some forecast_data =>
          if !truthy forecast_data then
            (.ok "Unable to fetch detailed forecast.", 2)
          else
            match (do
                let props ← pyIndex forecast_data "properties"
                let periods ← pyIndex props "periods"
                let sliced ← pySliceTo5 periods
                let items ← pyIter sliced
                let forecasts ← mapExcept formatPeriod items
                pure (String.intercalate "\n---\n" forecasts) : Except PyErr String) with
            | .ok s => (.ok s, 2)
            | .error e => (.error e, 2)

/-- Resource handler `get_greeting(name)`. -/
def get_greeting (name : String) : String := "Hello, " ++ name ++ "!"

/-- Prompt handler `translation_ja(txt)`. -/
def translation_ja (txt : String) : String :=
  "Please translate this sentence into Japanese:\n\n" ++ txt

/-- Number of start positions in `s` at which the string `needle` occurs. -/
def occCount (needle s : String) : Nat :=
  ((List.range s.length).filter
    fun i => (s.toList.drop i).take needle.toList.length = needle.toList).length

/-! Inversion and unfolding lemmas -/

lemma objLookup_ne_nil {m : List (String × Json)} {k : String} {v : Json}
    (h : objLookup m k = some v) : m ≠ [] := by
  intro hnil
  subst hnil
  simp [objLookup] at h

lemma pyIndex_ok {x : Json} {k : String} {v : Json} (h : pyIndex x k = .ok v) :
    ∃ m, x = .obj m ∧ objLookup m k = some v := by
  cases x <;> simp [pyIndex] at h
  case obj m =>
    refine ⟨m, rfl, ?_⟩
    cases hm : objLookup m k <;> simp [hm] at h
    simp [h]

lemma truthy_of_objLookup {m : List (String × Json)} {k : String} {v : Json}
    (h : objLookup m k = some v) : truthy (.obj m) = true := by
  have := objLookup_ne_nil h
  simpa [truthy, List.isEmpty_iff]

lemma pyContains_of_objLookup {m : List (String × Json)} {k : String} {v : Json}
    (h : objLookup m k = some v) : pyContains k (.obj m) = .ok true := by
  simp [pyContains, h]

/-- When the reply parses to a dict with a `features` entry, `get_alerts`
reaches the empty-check and formatting stage on that entry. -/
lemma get_alerts_eq_of_features {resp : NwsResponse} {m : List (String × Json)} {fv : Json}
    (h1 : make_nws_request resp = some (.obj m))
    (h2 : objLookup m "features" = some fv) :
    get_alerts resp =
      (if !truthy fv then .ok "No active alerts for this state."
       else do
         let items ← pyIter fv
         let alerts ← mapExcept format_alert items
         pure (String.intercalate "\n---\n" alerts)) := by
  rw [get_alerts, h1]
  simp only [truthy_of_objLookup h2, pyContains_of_objLookup h2, Bool.not_true,
    Bool.false_eq_true, if_false, pyIndex, h2]
  cases hb : (!truthy fv) <;> simp_all [Bind.bind, Except.bind, Pure.pure, Except.pure]

lemma mapExcept_length {f : Json → Except PyErr String} {l : List Json} {bs : List String}
    (h : mapExcept f l = .ok bs) : bs.length = l.length := by
  induction l generalizing bs with
  | nil =>
    simp only [mapExcept] at h
    cases h
    rfl
  | cons x xs ih =>
    simp only [mapExcept] at h
    cases hf : f x with
    | error e => rw [hf] at h; cases h
    | ok b =>
      rw [hf] at h
      cases hr : mapExcept f xs with
      | error e => rw [hr] at h; cases h
      | ok tl =>
        rw [hr] at h
        cases h
        simp [ih hr]

lemma mapExcept_ok_of_forall {f : Json → Except PyErr String} {l : List Json}
    (h : ∀ x ∈ l, ∃ b, f x = .ok b) : ∃ bs, mapExcept f l = .ok bs := by
  induction l with
  | nil => exact ⟨[], rfl⟩
  | cons x xs ih =>
    obtain ⟨b, hb⟩ := h x (List.mem_cons_self x xs)
    obtain ⟨bs, hbs⟩ := ih fun y hy => h y (List.mem_cons_of_mem x hy)
    exact ⟨b :: bs, by simp [mapExcept, hb, hbs]⟩

lemma mapExcept_mem_ok {f : Json → Except PyErr String} {l : List Json} {bs : List String}
    (h : mapExcept f l = .ok bs) : ∀ b ∈ bs, ∃ x ∈ l, f x = .ok b := by
  induction l generalizing bs with
  | nil =>
    simp only [mapExcept] at h
    cases h
    simp
  | cons x xs ih =>
    simp only [mapExcept] at h
    cases hf : f x with
    | error e => rw [hf] at h; cases h
    | ok b0 =>
      rw [hf] at h
      cases hr : mapExcept f xs with
      | error e => rw [hr] at h; cases h
      | ok tl =>
        rw [hr] at h
        cases h
        intro b hb
        rcases List.mem_cons.mp hb with hb | hb
        · exact ⟨x, List.mem_cons_self x xs, hb ▸ hf⟩
        · obtain ⟨y, hy, hfy⟩ := ih hr b hb
          exact ⟨y, List.mem_cons_of_mem x hy, hfy⟩

/-- The five-line alert block of the source f-string with the five field
strings interpolated in the fixed order. -/
def alertBlock (e a sv d i : String) : String :=
  "\nEvent: " ++ e ++ "\nArea: " ++ a ++ "\nSeverity: " ++ sv
    ++ "\nDescription: " ++ d ++ "\nInstructions: " ++ i ++ "\n"

/-- The string `format_alert` produces for a feature whose `properties` value
is the dict `props`: each field defaulted by `.get` and interpolated. -/
def alertRender (props : List (String × Json)) : String :=
  alertBlock
    (pyStr ((objLookup props "event").getD (.str "Unknown")))
    (pyStr ((objLookup props "areaDesc").getD (.str "Unknown")))
    (pyStr ((objLookup props "severity").getD (.str "Unknown")))
    (pyStr ((objLookup props "description").getD (.str "No description available")))
    (pyStr ((objLookup props "instruction").getD (.str "No specific instructions provided")))

lemma format_alert_props {feature : Json} {props : List (String × Json)}
    (h : pyIndex feature "properties" = .ok (.obj props)) :
    format_alert feature = .ok (alertRender props) := by
  rw [format_alert, h]
  simp [pyGet, Bind.bind, Except.bind, Pure.pure, Except.pure, alertRender, alertBlock]

lemma format_alert_ok_shape {feature : Json} {b : String} (h : format_alert feature = .ok b) :
    ∃ e a sv d i, b = alertBlock e a sv d i := by
  cases hp : pyIndex feature "properties" with
  | error e =>
    rw [format_alert, hp] at h
    simp [Bind.bind, Except.bind] at h
  | ok props =>
    cases props with
    | obj m =>
      rw [format_alert_props hp] at h
      cases h
      exact ⟨_, _, _, _, _, rfl⟩
    | null =>
      rw [format_alert, hp] at h
      simp [pyGet, Bind.bind, Except.bind] at h
    | bool v =>
      rw [format_alert, hp] at h
      simp [pyGet, Bind.bind, Except.bind] at h
    | int v =>
      rw [format_alert, hp] at h
      simp [pyGet, Bind.bind, Except.bind] at h
    | str v =>
      rw [format_alert, hp] at h
      simp [pyGet, Bind.bind, Except.bind] at h
    | arr v =>
      rw [format_alert, hp] at h
      simp [pyGet, Bind.bind, Except.bind] at h

/-- The six field values `get_forecast` reads off one period dict. -/
structure PeriodFields where
  name : Json
  temperature : Json
  temperatureUnit : Json
  windSpeed : Json
  windDirection : Json
  detailedForecast : Json

/-- Predicate relating a period dict to its fields: `fields` are exactly the values the six subscripts of the period
f-string read off `period`. -/
def periodFieldsOf (period : Json) (fields : PeriodFields) : Prop :=
  pyIndex period "name" = .ok fields.name
    ∧ pyIndex period "temperature" = .ok fields.temperature
    ∧ pyIndex period "temperatureUnit" = .ok fields.temperatureUnit
    ∧ pyIndex period "windSpeed" = .ok fields.windSpeed
    ∧ pyIndex period "windDirection" = .ok fields.windDirection
    ∧ pyIndex period "detailedForecast" = .ok fields.detailedForecast

/-- The period block of the source f-string with the six values
interpolated. -/
def renderPeriod (f : PeriodFields) : String :=
  "\n" ++ pyStr f.name ++ ":\nTemperature: " ++ pyStr f.temperature ++ "Â°"
    ++ pyStr f.temperatureUnit ++ "\nWind: " ++ pyStr f.windSpeed ++ " "
    ++ pyStr f.windDirection ++ "\nForecast: " ++ pyStr f.detailedForecast ++ "\n"

lemma formatPeriod_fields {period : Json} {f : PeriodFields} (h : periodFieldsOf period f) :
    formatPeriod period = .ok (renderPeriod f) := by
  obtain ⟨hn, ht, hu, hw, hwd, hdf⟩ := h
  rw [formatPeriod, hn]
  simp [ht, hu, hw, hwd, hdf, Bind.bind, Except.bind, Pure.pure, Except.pure, renderPeriod]

lemma mapExcept_renderPeriod {ps : List Json} {fs : List PeriodFields}
    (h : List.Forall₂ periodFieldsOf ps fs) :
    mapExcept formatPeriod ps = .ok (fs.map renderPeriod) := by
  induction h with
  | nil => rfl
  | cons hpf _ ih =>
    simp [mapExcept, formatPeriod_fields hpf, ih]

/-- When both replies parse to truthy dicts carrying the expected
`properties`/`forecast`/`periods` entries, `get_forecast` reaches the
slice-format-join stage with both calls made. -/
lemma get_forecast_eq_of_data {r1 r2 : NwsResponse} {pd p1 u fd p2 pv : Json}
    (h1 : make_nws_request r1 = some pd)
    (h2 : pyIndex pd "properties" = .ok p1)
    (h3 : pyIndex p1 "forecast" = .ok u)
    (h4 : make_nws_request r2 = some fd)
    (h5 : pyIndex fd "properties" = .ok p2)
    (h6 : pyIndex p2 "periods" = .ok pv) :
    get_forecast r1 r2 =
      (match (do
          let sliced ← pySliceTo5 pv
          let items ← pyIter sliced
          let forecasts ← mapExcept formatPeriod items
          pure (String.intercalate "\n---\n" forecasts) : Except PyErr String) with
       | .ok s => (.ok s, 2)
       | .error e => (.error e, 2)) := by
  obtain ⟨m1, rfl, hl1⟩ := pyIndex_ok h2
  obtain ⟨m2, rfl, hl2⟩ := pyIndex_ok h5
  rw [get_forecast, h1]
  simp only [truthy_of_objLookup hl1, truthy_of_objLookup hl2, Bool.not_true,
    Bool.false_eq_true, if_false, h2, h3, h4, h5, h6, Bind.bind, Except.bind]

/-! Concrete payloads used by counterexamples and witnesses -/

/-- A 2xx reply whose parsed body is a non-empty dict that lacks every field
the handlers expect. -/
def malformedReply : NwsResponse := .reply 200 (some (.obj [("malformed", .int 1)]))

/-- A well-formed grid-point reply body. -/
def okPointsJson : Json :=
  .obj [("properties",
    .obj [("forecast", .str "https://api.weather.gov/gridpoints/TOP/31,80/forecast")])]

/-- A 2xx reply carrying `okPointsJson`. -/
def okPointsResp : NwsResponse := .reply 200 (some okPointsJson)

/-- An alert feature whose `description` itself contains the block
separator. -/
def sepDescFeature : Json :=
  .obj [("properties", .obj [("description", .str "x\n---\ny")])]

/-- A 2xx alerts reply with `sepDescFeature` as its single feature. -/
def sepDescResp : NwsResponse :=
  .reply 200 (some (.obj [("features", .arr [sepDescFeature])]))

/-- What `get_alerts` renders for `sepDescResp`. -/
def sepDescOut : String :=
  "\nEvent: Unknown\nArea: Unknown\nSeverity: Unknown\nDescription: x\n---\ny\nInstructions: No specific instructions provided\n"

/-- An alert feature whose `properties` dict is empty. -/
def plainFeature : Json := .obj [("properties", .obj [])]

/-- A 2xx alerts reply with `plainFeature` as its single feature. -/
def plainAlertsResp : NwsResponse :=
  .reply 200 (some (.obj [("features", .arr [plainFeature])]))

/-- What `format_alert` renders for `plainFeature`: every default
placeholder. -/
def plainBlock : String :=
  "\nEvent: Unknown\nArea: Unknown\nSeverity: Unknown\nDescription: No description available\nInstructions: No specific instructions provided\n"

/-- An alert feature that has a `properties` key, but mapped to a number
rather than a dict. -/
def nonDictPropsFeature : Json := .obj [("properties", .int 5)]

/-- A 2xx alerts reply with `nonDictPropsFeature` as its single feature. -/
def nonDictPropsResp : NwsResponse :=
  .reply 200 (some (.obj [("features", .arr [nonDictPropsFeature])]))

/-- An alert feature with no `properties` key at all. -/
def missingPropsFeature : Json := .obj [("event", .str "Flood")]

/-- A 2xx alerts reply with `missingPropsFeature` as its single feature. -/
def missingPropsResp : NwsResponse :=
  .reply 200 (some (.obj [("features", .arr [missingPropsFeature])]))

/-- A forecast reply body with an empty `periods` list. -/
def emptyPeriodsJson : Json := .obj [("properties", .obj [("periods", .arr [])])]

/-- A 2xx reply carrying `emptyPeriodsJson`. -/
def emptyPeriodsResp : NwsResponse := .reply 200 (some emptyPeriodsJson)

/-! Claim theorems -/

/-- C2: for every reply on which the upstream call fails — transport error,
timeout, non-2xx status or unparseable body, i.e. `make_nws_request` gives
no data — `get_alerts` returns exactly the string
"Unable to fetch alerts or no alerts found." and never raises. -/
theorem get_alerts_upstream_failure_fixed_string :
    ∀ resp : NwsResponse, make_nws_request resp = none →
      get_alerts resp = .ok "Unable to fetch alerts or no alerts found." := by
  intro resp h
  rw [get_alerts, h]

/-- Witness for C2 at a raising request. -/
theorem get_alerts_upstream_failure_fixed_string_witness :
    get_alerts .exn = .ok "Unable to fetch alerts or no alerts found." :=
  get_alerts_upstream_failure_fixed_string .exn rfl

/-- C4: whenever the grid-point lookup yields no data, `get_forecast`
returns exactly "Unable to fetch forecast data for this location." and
performs only the one outbound call — the forecast URL is never fetched. -/
theorem get_forecast_first_failure_no_second_call :
    ∀ r1 r2 : NwsResponse, make_nws_request r1 = none →
      get_forecast r1 r2 = (.ok "Unable to fetch forecast data for this location.", 1) := by
  intro r1 r2 h
  rw [get_forecast, h]

/-- Witness for C4 at a 500 reply. -/
theorem get_forecast_first_failure_no_second_call_witness :
    get_forecast (.reply 500 none) .exn
      = (.ok "Unable to fetch forecast data for this location.", 1) :=
  get_forecast_first_failure_no_second_call (.reply 500 none) .exn rfl

/-- C6: whenever the upstream call succeeds and the `features`
entry of the parsed body is the empty list, `get_alerts` returns exactly
"No active alerts for this state." -/
theorem get_alerts_empty_features_no_active :
    ∀ (resp : NwsResponse) (data : Json), make_nws_request resp = some data →
      pyIndex data "features" = .ok (.arr []) →
      get_alerts resp = .ok "No active alerts for this state." := by
  intro resp data h1 h2
  obtain ⟨m, rfl, hl⟩ := pyIndex_ok h2
  rw [get_alerts_eq_of_features h1 hl]
  simp [truthy]

/-- Witness for C6 at a reply whose body is exactly an empty features
list. -/
theorem get_alerts_empty_features_no_active_witness :
    get_alerts (.reply 200 (some (.obj [("features", .arr [])])))
      = .ok "No active alerts for this state." :=
  get_alerts_empty_features_no_active
    (.reply 200 (some (.obj [("features", .arr [])]))) (.obj [("features", .arr [])]) rfl rfl

/-- C8: `make_nws_request` returns the parsed body of a 2xx reply and
collapses every failure of its `try` body — transport error, non-2xx
status, unparseable body — into the uniform no-data signal `none`,
never propagating an exception or a typed error. -/
theorem make_nws_request_uniform_no_data :
    ∀ r : NwsResponse,
      (make_nws_request r = none ↔ ∃ e, requestTryBody r = .error e)
      ∧ (∀ j, make_nws_request r = some j ↔ requestTryBody r = .ok j)
      ∧ (∀ st body j, r = .reply st body → requestTryBody r = .ok j →
          200 ≤ st ∧ st < 300 ∧ body = some j) := by
  intro r
  refine ⟨?_, ?_, ?_⟩
  · cases h : requestTryBody r with
    | ok j => simp [make_nws_request, h]
    | error e => simp [make_nws_request, h]
  · intro j
    cases h : requestTryBody r with
    | ok b => simp [make_nws_request, h]
    | error e => simp [make_nws_request, h]
  · intro st body j hr h
    subst hr
    simp only [requestTryBody] at h
    split at h
    · cases body with
      | none => cases h
      | some b =>
        cases h
        refine ⟨?_, ?_, rfl⟩ <;> omega
    · cases h

/-- Witness for C8: a 404 reply collapses to `none`, a 200 reply hands back
its parsed body. -/
theorem make_nws_request_uniform_no_data_witness :
    make_nws_request (.reply 404 (some .null)) = none
      ∧ (200 ≤ 200 ∧ 200 < 300 ∧ (some Json.null = some Json.null)) :=
  ⟨(make_nws_request_uniform_no_data (.reply 404 (some .null))).1.mpr
      ⟨.httpStatusError, rfl⟩,
   (make_nws_request_uniform_no_data (.reply 200 (some .null))).2.2 200 (some .null)
      .null rfl rfl⟩

/-- C1 counterexample: the first outbound call returns a well-formed 2xx
body that merely lacks the expected `properties`/`forecast` fields, and
`get_forecast` does not return a fixed failure string — it raises
`KeyError` after the single call, contradicting the claim that the first
missing-field case of the first call is guarded. -/
theorem get_forecast_first_call_malformed_raises :
    get_forecast malformedReply .exn = (.error .keyError, 1) := rfl

/-- C1 amended: `get_forecast` degrades gracefully on the first call only
when that call yields no data; a malformed response missing the expected
fields is unguarded on the first call exactly as on the second — on either
call it propagates an unhandled `KeyError` fault. -/
theorem get_forecast_missing_fields_unguarded_on_both_calls :
    (∀ r1 r2 : NwsResponse, make_nws_request r1 = none →
      get_forecast r1 r2 = (.ok "Unable to fetch forecast data for this location.", 1))
    ∧ (∀ r2 : NwsResponse, get_forecast malformedReply r2 = (.error .keyError, 1))
    ∧ get_forecast okPointsResp malformedReply = (.error .keyError, 2) := by
  refine ⟨?_, ?_, rfl⟩
  · intro r1 r2 h
    rw [get_forecast, h]
  · intro r2
    rfl

/-- Witness for C1 (amended): the graceful branch at a raising first
request. -/
theorem get_forecast_missing_fields_unguarded_on_both_calls_witness :
    get_forecast .exn .exn
      = (.ok "Unable to fetch forecast data for this location.", 1) :=
  get_forecast_missing_fields_unguarded_on_both_calls.1 .exn .exn rfl

/-- C3 counterexample: a response with a single alert feature (N = 1) whose
description itself contains the separator; the returned text then contains
one occurrence of "\n---\n", not the claimed N - 1 = 0, and the block does
not consist of five lines. -/
theorem get_alerts_single_feature_extra_separator :
    get_alerts sepDescResp = .ok sepDescOut
      ∧ occCount "\n---\n" sepDescOut = 1 :=
  ⟨rfl, by decide⟩

/-- C3 amended: for a successful response with N ≥ 1 alert features each of
which formats without fault, the returned text is exactly the N formatted
blocks joined by the literal separator "\n---\n" in feature order, each
block interpolating its five labeled fields in the fixed order Event, Area,
Severity, Description, Instructions (the claimed N - 1 separator-occurrence
count can fail when a field value itself contains the separator). -/
theorem get_alerts_blocks_joined_by_separator :
    ∀ (resp : NwsResponse) (data : Json) (feats : List Json) (blocks : List String),
      make_nws_request resp = some data →
      pyIndex data "features" = .ok (.arr feats) →
      feats ≠ [] →
      mapExcept format_alert feats = .ok blocks →
      get_alerts resp = .ok (String.intercalate "\n---\n" blocks)
        ∧ blocks.length = feats.length
        ∧ ∀ b ∈ blocks, ∃ e a sv d i, b = alertBlock e a sv d i := by
  intro resp data feats blocks h1 h2 hne h3
  obtain ⟨m, rfl, hl⟩ := pyIndex_ok h2
  rw [get_alerts_eq_of_features h1 hl]
  have htr : truthy (.arr feats) = true := by
    simpa [truthy, List.isEmpty_iff]
  refine ⟨?_, mapExcept_length h3, ?_⟩
  · simp [htr, pyIter, Bind.bind, Except.bind, h3, Pure.pure, Except.pure]
  · intro b hb
    obtain ⟨x, _, hfx⟩ := mapExcept_mem_ok h3 b hb
    exact format_alert_ok_shape hfx

/-- Witness for C3 (amended) at a one-feature response rendering every
default. -/
theorem get_alerts_blocks_joined_by_separator_witness :
    get_alerts plainAlertsResp = .ok (String.intercalate "\n---\n" [plainBlock])
      ∧ [plainBlock].length = [plainFeature].length
      ∧ ∀ b ∈ [plainBlock], ∃ e a sv d i, b = alertBlock e a sv d i :=
  get_alerts_blocks_joined_by_separator plainAlertsResp
    (.obj [("features", .arr [plainFeature])]) [plainFeature] [plainBlock]
    rfl rfl (by simp) rfl

/-- C7: every optional field absent from the `properties` dict of an
alert feature is rendered as its placeholder: "Unknown" for event, area and
severity, "No description available" for the description,
"No specific instructions provided" for the instruction. -/
theorem format_alert_missing_fields_render_placeholders :
    ∀ (feature : Json) (props : List (String × Json)),
      pyIndex feature "properties" = .ok (.obj props) →
      ((objLookup props "event" = none →
          ∃ a sv d i, format_alert feature = .ok (alertBlock "Unknown" a sv d i))
        ∧ (objLookup props "areaDesc" = none →
          ∃ e sv d i, format_alert feature = .ok (alertBlock e "Unknown" sv d i))
        ∧ (objLookup props "severity" = none →
          ∃ e a d i, format_alert feature = .ok (alertBlock e a "Unknown" d i))
        ∧ (objLookup props "description" = none →
          ∃ e a sv i, format_alert feature
            = .ok (alertBlock e a sv "No description available" i))
        ∧ (objLookup props "instruction" = none →
          ∃ e a sv d, format_alert feature
            = .ok (alertBlock e a sv d "No specific instructions provided"))) := by
  intro feature props h
  have hfa := format_alert_props h
  refine ⟨?_, ?_, ?_, ?_, ?_⟩ <;> intro hk <;> rw [hfa, alertRender, hk] <;>
    exact ⟨_, _, _, _, rfl⟩

/-- Witness for C7 at a feature with an empty `properties` dict: all five
placeholders at once. -/
theorem format_alert_missing_fields_render_placeholders_witness :
    (∃ a sv d i, format_alert plainFeature = .ok (alertBlock "Unknown" a sv d i))
      ∧ (∃ e sv d i, format_alert plainFeature = .ok (alertBlock e "Unknown" sv d i))
      ∧ (∃ e a d i, format_alert plainFeature = .ok (alertBlock e a "Unknown" d i))
      ∧ (∃ e a sv i, format_alert plainFeature
          = .ok (alertBlock e a sv "No description available" i))
      ∧ (∃ e a sv d, format_alert plainFeature
          = .ok (alertBlock e a sv d "No specific instructions provided")) :=
  ⟨(format_alert_missing_fields_render_placeholders plainFeature [] rfl).1 rfl,
   (format_alert_missing_fields_render_placeholders plainFeature [] rfl).2.1 rfl,
   (format_alert_missing_fields_render_placeholders plainFeature [] rfl).2.2.1 rfl,
   (format_alert_missing_fields_render_placeholders plainFeature [] rfl).2.2.2.1 rfl,
   (format_alert_missing_fields_render_placeholders plainFeature [] rfl).2.2.2.2 rfl⟩

/-- A forecast period dict carrying all six fields the formatter reads. -/
def periodJson (nm : String) (t : Int) : Json :=
  .obj [("name", .str nm), ("temperature", .int t), ("temperatureUnit", .str "F"),
    ("windSpeed", .str "5 mph"), ("windDirection", .str "NW"),
    ("detailedForecast", .str "Clear")]

/-- The field values of `periodJson nm t`. -/
def periodFieldsFor (nm : String) (t : Int) : PeriodFields :=
  ⟨.str nm, .int t, .str "F", .str "5 mph", .str "NW", .str "Clear"⟩

/-- Six forecast periods. -/
def sixPeriods : List Json :=
  [periodJson "P1" 1, periodJson "P2" 2, periodJson "P3" 3, periodJson "P4" 4,
    periodJson "P5" 5, periodJson "P6" 6]

/-- The fields of the first five of `sixPeriods`. -/
def fivePeriodFields : List PeriodFields :=
  [periodFieldsFor "P1" 1, periodFieldsFor "P2" 2, periodFieldsFor "P3" 3,
    periodFieldsFor "P4" 4, periodFieldsFor "P5" 5]

/-- A 2xx forecast reply carrying `sixPeriods`. -/
def sixPeriodsResp : NwsResponse :=
  .reply 200 (some (.obj [("properties", .obj [("periods", .arr sixPeriods)])]))

/-- C5: when both calls of `get_forecast` succeed and the response carries a
`periods` list of length ≥ 5, exactly the first five periods are rendered,
in their original order, each block interpolating the name,
temperature, temperature unit, wind speed, wind direction and detailed
forecast of that period verbatim, joined by "\n---\n". -/
theorem get_forecast_renders_first_five_periods :
    ∀ (r1 r2 : NwsResponse) (pd p1 u fd p2 : Json) (periods : List Json)
      (fields : List PeriodFields),
      make_nws_request r1 = some pd →
      pyIndex pd "properties" = .ok p1 →
      pyIndex p1 "forecast" = .ok u →
      make_nws_request r2 = some fd →
      pyIndex fd "properties" = .ok p2 →
      pyIndex p2 "periods" = .ok (.arr periods) →
      5 ≤ periods.length →
      List.Forall₂ periodFieldsOf (periods.take 5) fields →
      get_forecast r1 r2
        = (.ok (String.intercalate "\n---\n" (fields.map renderPeriod)), 2)
        ∧ fields.length = 5 := by
  intro r1 r2 pd p1 u fd p2 periods fields h1 h2 h3 h4 h5 h6 hlen hff
  constructor
  · rw [get_forecast_eq_of_data h1 h2 h3 h4 h5 h6]
    simp [pySliceTo5, pyIter, Bind.bind, Except.bind, Pure.pure, Except.pure,
      mapExcept_renderPeriod hff]
  · have := hff.length_eq
    simp only [List.length_take] at this
    omega

/-- Witness for C5 at a six-period reply: five blocks, sixth period
dropped. -/
theorem get_forecast_renders_first_five_periods_witness :
    get_forecast okPointsResp sixPeriodsResp
      = (.ok (String.intercalate "\n---\n" (fivePeriodFields.map renderPeriod)), 2)
      ∧ fivePeriodFields.length = 5 :=
  get_forecast_renders_first_five_periods okPointsResp sixPeriodsResp
    okPointsJson
    (.obj [("forecast", .str "https://api.weather.gov/gridpoints/TOP/31,80/forecast")])
    (.str "https://api.weather.gov/gridpoints/TOP/31,80/forecast")
    (.obj [("properties", .obj [("periods", .arr sixPeriods)])])
    (.obj [("periods", .arr sixPeriods)])
    sixPeriods fivePeriodFields
    rfl rfl rfl rfl rfl rfl (by simp [sixPeriods])
    (by
      refine .cons ⟨rfl, rfl, rfl, rfl, rfl, rfl⟩ ?_
      refine .cons ⟨rfl, rfl, rfl, rfl, rfl, rfl⟩ ?_
      refine .cons ⟨rfl, rfl, rfl, rfl, rfl, rfl⟩ ?_
      refine .cons ⟨rfl, rfl, rfl, rfl, rfl, rfl⟩ ?_
      refine .cons ⟨rfl, rfl, rfl, rfl, rfl, rfl⟩ ?_
      exact .nil)

/-- C9: when both calls of `get_forecast` succeed, an empty `periods` list
yields the empty string rather than a failure message, and a `periods` list
of length N with 1 ≤ N < 5 yields exactly N rendered blocks. -/
theorem get_forecast_short_periods_behavior :
    (∀ (r1 r2 : NwsResponse) (pd p1 u fd p2 : Json),
        make_nws_request r1 = some pd →
        pyIndex pd "properties" = .ok p1 →
        pyIndex p1 "forecast" = .ok u →
        make_nws_request r2 = some fd →
        pyIndex fd "properties" = .ok p2 →
        pyIndex p2 "periods" = .ok (.arr []) →
        get_forecast r1 r2 = (.ok "", 2))
    ∧ (∀ (r1 r2 : NwsResponse) (pd p1 u fd p2 : Json) (periods : List Json)
          (blocks : List String),
        make_nws_request r1 = some pd →
        pyIndex pd "properties" = .ok p1 →
        pyIndex p1 "forecast" = .ok u →
        make_nws_request r2 = some fd →
        pyIndex fd "properties" = .ok p2 →
        pyIndex p2 "periods" = .ok (.arr periods) →
        1 ≤ periods.length → periods.length < 5 →
        mapExcept formatPeriod periods = .ok blocks →
        get_forecast r1 r2 = (.ok (String.intercalate "\n---\n" blocks), 2)
          ∧ blocks.length = periods.length) := by
  constructor
  · intro r1 r2 pd p1 u fd p2 h1 h2 h3 h4 h5 h6
    rw [get_forecast_eq_of_data h1 h2 h3 h4 h5 h6]
    rfl
  · intro r1 r2 pd p1 u fd p2 periods blocks h1 h2 h3 h4 h5 h6 _ hlt hmap
    have htake : periods.take 5 = periods := List.take_of_length_le (by omega)
    refine ⟨?_, mapExcept_length hmap⟩
    rw [get_forecast_eq_of_data h1 h2 h3 h4 h5 h6]
    simp [pySliceTo5, pyIter, htake, hmap, Bind.bind, Except.bind, Pure.pure, Except.pure]

/-- Witness for C9: an empty periods list renders the empty string, a
two-period list renders two blocks. -/
theorem get_forecast_short_periods_behavior_witness :
    get_forecast okPointsResp emptyPeriodsResp = (.ok "", 2)
      ∧ (get_forecast okPointsResp
          (.reply 200 (some (.obj [("properties",
            .obj [("periods", .arr [periodJson "P1" 1, periodJson "P2" 2])])])))
          = (.ok (String.intercalate "\n---\n"
              [renderPeriod (periodFieldsFor "P1" 1), renderPeriod (periodFieldsFor "P2" 2)]), 2)
          ∧ ([renderPeriod (periodFieldsFor "P1" 1), renderPeriod (periodFieldsFor "P2" 2)]).length
            = ([periodJson "P1" 1, periodJson "P2" 2] : List Json).length) :=
  ⟨get_forecast_short_periods_behavior.1 okPointsResp emptyPeriodsResp
      okPointsJson
      (.obj [("forecast", .str "https://api.weather.gov/gridpoints/TOP/31,80/forecast")])
      (.str "https://api.weather.gov/gridpoints/TOP/31,80/forecast")
      emptyPeriodsJson (.obj [("periods", .arr [])])
      rfl rfl rfl rfl rfl rfl,
   get_forecast_short_periods_behavior.2 okPointsResp
      (.reply 200 (some (.obj [("properties",
        .obj [("periods", .arr [periodJson "P1" 1, periodJson "P2" 2])])])))
      okPointsJson
      (.obj [("forecast", .str "https://api.weather.gov/gridpoints/TOP/31,80/forecast")])
      (.str "https://api.weather.gov/gridpoints/TOP/31,80/forecast")
      (.obj [("properties", .obj [("periods", .arr [periodJson "P1" 1, periodJson "P2" 2])])])
      (.obj [("periods", .arr [periodJson "P1" 1, periodJson "P2" 2])])
      [periodJson "P1" 1, periodJson "P2" 2]
      [renderPeriod (periodFieldsFor "P1" 1), renderPeriod (periodFieldsFor "P2" 2)]
      rfl rfl rfl rfl rfl rfl (by simp) (by simp) rfl⟩

/-- C10 counterexample: a feature that is a record containing a
`properties` key — mapped to a number — satisfies the precondition the
claim states, yet `get_alerts` raises (`AttributeError` from `.get` on a
non-dict) instead of returning without raising. -/
theorem get_alerts_non_dict_properties_raises :
    objLookup [("properties", Json.int 5)] "properties" = some (.int 5)
      ∧ get_alerts nonDictPropsResp = .error .attributeError :=
  ⟨rfl, rfl⟩

/-- C10 amended: `get_alerts` returns without raising whenever every entry
of the features list is a record whose `properties` key is mapped to a
record; and for some response containing a feature without `properties` the
call raises (`KeyError`) instead of rendering placeholder text. -/
theorem get_alerts_no_raise_iff_props_are_dicts :
    (∀ (resp : NwsResponse) (data : Json) (feats : List Json),
        make_nws_request resp = some data →
        pyIndex data "features" = .ok (.arr feats) →
        (∀ f ∈ feats, ∃ kvs props, f = .obj kvs
          ∧ objLookup kvs "properties" = some (.obj props)) →
        ∃ s, get_alerts resp = .ok s)
    ∧ get_alerts missingPropsResp = .error .keyError := by
  refine ⟨?_, rfl⟩
  intro resp data feats h1 h2 hfeats
  obtain ⟨m, rfl, hl⟩ := pyIndex_ok h2
  rw [get_alerts_eq_of_features h1 hl]
  cases htr : (!truthy (.arr feats))
  · have hall : ∀ f ∈ feats, ∃ b, format_alert f = .ok b := by
      intro f hf
      obtain ⟨kvs, props, rfl, hprops⟩ := hfeats f hf
      exact ⟨alertRender props, format_alert_props (by simp [pyIndex, hprops])⟩
    obtain ⟨bs, hbs⟩ := mapExcept_ok_of_forall hall
    refine ⟨String.intercalate "\n---\n" bs, ?_⟩
    simp [htr, pyIter, hbs, Bind.bind, Except.bind, Pure.pure, Except.pure]
  · exact ⟨"No active alerts for this state.", by simp [htr]⟩

/-- Witness for C10 (amended): a response whose single feature has a dict
`properties` is answered without raising. -/
theorem get_alerts_no_raise_iff_props_are_dicts_witness :
    ∃ s, get_alerts plainAlertsResp = .ok s :=
  get_alerts_no_raise_iff_props_are_dicts.1 plainAlertsResp
    (.obj [("features", .arr [plainFeature])]) [plainFeature] rfl rfl
    (by
      intro f hf
      simp only [List.mem_singleton] at hf
      exact ⟨[("properties", .obj [])], [], hf ▸ rfl, rfl⟩)

end Weather
